import Mathlib

/-!
Shallow embedding of the file-acquisition pipeline of
`src/frontend/script.js` (the `FileAcquisitionController` of the spec):
the global state variables `stream` and `selectedFile`, the DOM-visible
state the handlers mutate (hidden classes, rendered results), and the
event handlers `openCamera`, `captureImage`, `handleFileSelection`,
`analyzeResume`, `generateResults`, and the drop / file-picker listeners
installed by `initDragAndDrop`.

Platform calls (`getUserMedia`, canvas drawing, `canvas.toBlob`) are
modelled by explicit environment parameters carrying the platform's
response; machine-level details that the script never observes (pixel
data, CSS layout) are carried as opaque payloads or plain strings.
-/

namespace Script

/-- A `File` handle as the script observes it: `file.name`, `file.type`
(the declared MIME type) and its opaque byte payload. -/
structure File where
  name : String
  mimeType : String
  bytes : List Nat
deriving Repr, DecidableEq

/-- The user-visible error messages the script raises via `alert(...)`,
named as in the spec's error taxonomy.  `mediaAccess` is the alert in
`openCamera`'s catch block, `unsupportedFileType` the alert in
`handleFileSelection`, `noFileSelected` the alert in `analyzeResume`. -/
inductive UserError where
  | mediaAccess
  | unsupportedFileType
  | noFileSelected
deriving Repr, DecidableEq

/-- One record of the literal `sampleInternships` array in
`generateResults`.  The JS field `match` is a Lean keyword, so it is
rendered `matchScore`. -/
structure Internship where
  title : String
  company : String
  matchScore : Nat
  skills : List String
  description : String
  location : String
  duration : String
  stipend : String
  applyLink : String
deriving Repr, DecidableEq

/-- The controller state: the two script globals (`stream`,
`selectedFile`), the DOM state the handlers read or write, and a
hardware-side ledger `liveTracks` of camera track ids that have been
acquired and not yet stopped (`track.stop()` removes a track from it).
A stream value is its list of track ids.  `alerts` accumulates the
user-visible messages in order.  `pendingAnalysis` records that
`analyzeResume` has scheduled its `setTimeout` callback. -/
structure St where
  stream : Option (List Nat)
  liveTracks : List Nat
  videoSrcObject : Option (List Nat)
  selectedFile : Option File
  selectedFileName : String
  selectedFileContainerHidden : Bool
  cameraFeedHidden : Bool
  cameraBtnHidden : Bool
  loadingHidden : Bool
  resultsHidden : Bool
  pendingAnalysis : Bool
  skillsContainer : List String
  profileSummary : String
  internshipsContainer : List Internship
  recommendationsRendered : Bool
  alerts : List UserError
  dropZoneBorderColor : String
  dropZoneBgColor : String
deriving Repr, DecidableEq

/-- The page's initial state (`Idle`): `stream = null`,
`selectedFile = null`, camera feed and selection container hidden,
camera button visible, no results rendered. -/
def initSt : St :=
  { stream := none
    liveTracks := []
    videoSrcObject := none
    selectedFile := none
    selectedFileName := ""
    selectedFileContainerHidden := true
    cameraFeedHidden := true
    cameraBtnHidden := false
    loadingHidden := true
    resultsHidden := true
    pendingAnalysis := false
    skillsContainer := []
    profileSummary := ""
    internshipsContainer := []
    recommendationsRendered := false
    alerts := []
    dropZoneBorderColor := "#4361ee"
    dropZoneBgColor := "rgba(67, 97, 238, 0.05)" }

/-- The `validTypes` allow-list checked in `handleFileSelection`. -/
def validTypes : List String :=
  ["application/pdf",
   "application/vnd.openxmlformats-officedocument.wordprocessingml.document",
   "application/msword", "text/plain", "image/jpeg", "image/png"]

/-- `handleFileSelection(file)`: unconditionally stores the candidate
(`selectedFile = file`, name shown, container unhidden), then checks
`file.type` against `validTypes`; on violation it alerts, clears
`selectedFile` to `null` and re-hides the container. -/
def handleFileSelection (file : File) (s : St) : St :=
  let s1 := { s with selectedFile := some file
                     selectedFileName := file.name
                     selectedFileContainerHidden := false }
  if validTypes.contains file.mimeType then
    s1
  else
    { s1 with alerts := s1.alerts ++ [UserError.unsupportedFileType]
              selectedFile := none
              selectedFileContainerHidden := true }

/-- The `dragover` listener in `initDragAndDrop`: style mutation only. -/
def dragoverHandler (s : St) : St :=
  { s with dropZoneBorderColor := "#4361ee"
           dropZoneBgColor := "rgba(67, 97, 238, 0.1)" }

/-- The `dragleave` listener in `initDragAndDrop`: style mutation only. -/
def dragleaveHandler (s : St) : St :=
  { s with dropZoneBorderColor := "#4361ee"
           dropZoneBgColor := "rgba(67, 97, 238, 0.05)" }

/-- The `drop` listener in `initDragAndDrop`: resets the drop-zone
styles, then calls `handleFileSelection(files[0])` only when
`e.dataTransfer.files` is non-empty. -/
def dropHandler (files : List File) (s : St) : St :=
  let s1 := { s with dropZoneBorderColor := "#4361ee"
                     dropZoneBgColor := "rgba(67, 97, 238, 0.05)" }
  match files with
  | [] => s1
  | f :: _ => handleFileSelection f s1

/-- The `change` listener on `fileInput`: calls
`handleFileSelection(e.target.files[0])` only when the file list is
non-empty. -/
def changeHandler (files : List File) (s : St) : St :=
  match files with
  | [] => s
  | f :: _ => handleFileSelection f s

/-- `openCamera()`: awaits `getUserMedia({video: true})`.  The platform's
response is the `grant` parameter: `some ts` is a granted stream whose
freshly started hardware tracks are `ts`; `none` is denial or absence of
a camera (the awaited promise rejects).  On success the script assigns
the global `stream`, sets `video.srcObject`, unhides the camera feed and
hides the camera button; on rejection the catch block only logs and
alerts, so no state variable is assigned. -/
def openCamera (grant : Option (List Nat)) (s : St) : St :=
  match grant with
  | some ts =>
      { s with stream := some ts
               liveTracks := s.liveTracks ++ ts
               videoSrcObject := some ts
               cameraFeedHidden := false
               cameraBtnHidden := true }
  | none =>
      { s with alerts := s.alerts ++ [UserError.mediaAccess] }

/-- The platform behaviour of one `captureImage()` run: whether the
canvas phase (`canvas.getContext`/`context.drawImage`) succeeds, and the
blob `canvas.toBlob` hands to its callback (`none` when encoding fails,
in which case the browser invokes the callback with `null`). -/
structure CaptureEnv where
  drawOk : Bool
  blobResult : Option (List Nat)
deriving Repr, DecidableEq

/-- Bytes of the `File` built by `new File([blob], ...)`: a `null` blob
part is coerced to the USV string "null" (bytes 110,117,108,108). -/
def blobPartBytes : Option (List Nat) → List Nat
  | some b => b
  | none => [110, 117, 108, 108]

/-- `captureImage()`: builds a canvas and draws the video frame (local
effects only; an exception here aborts the handler before any state
variable is touched), then runs `stream.getTracks().forEach(track =>
track.stop())` (throws if `stream` is `null`, so the state is also left
unchanged then), then `canvas.toBlob` whose callback wraps the blob as
`new File([blob], 'resume-photo.jpg', {type: 'image/jpeg'})`, calls
`handleFileSelection(file)` and resets the camera UI. -/
def captureImage (env : CaptureEnv) (s : St) : St :=
  if env.drawOk then
    match s.stream with
    | none => s
    | some ts =>
        let s1 := { s with liveTracks := s.liveTracks.filter (fun t => ¬ t ∈ ts) }
        let file : File :=
          { name := "resume-photo.jpg"
            mimeType := "image/jpeg"
            bytes := blobPartBytes env.blobResult }
        let s2 := handleFileSelection file s1
        { s2 with cameraFeedHidden := true
                  cameraBtnHidden := false }
  else
    s

/-- The literal `sampleSkills` of `generateResults`. -/
def sampleSkills : List String :=
  ["JavaScript", "React", "HTML5", "CSS3", "Python", "Node.js",
   "UI/UX Design", "Git"]

/-- The literal `sampleSummary` of `generateResults`. -/
def sampleSummary : String :=
  "Based on your resume, our AI has identified strong skills in frontend development with experience in React and JavaScript. Your profile shows potential for roles in web development, UI engineering, and full-stack development."

/-- The literal `sampleInternships` of `generateResults`. -/
def sampleInternships : List Internship :=
  [{ title := "Frontend Development Intern"
     company := "Tech Innovations Inc."
     matchScore := 92
     skills := ["HTML", "CSS", "JavaScript", "React"]
     description := "Join our frontend team to build responsive web applications using modern frameworks."
     location := "Remote"
     duration := "3 months"
     stipend := "$2,000/month"
     applyLink := "#" },
   { title := "UX/UI Design Intern"
     company := "Creative Solutions"
     matchScore := 85
     skills := ["Figma", "UI Design", "Wireframing", "User Research"]
     description := "Work with our design team to create intuitive user interfaces for our products."
     location := "New York, NY"
     duration := "4 months"
     stipend := "$1,800/month"
     applyLink := "#" },
   { title := "Full Stack Developer Intern"
     company := "WebCraft Studios"
     matchScore := 88
     skills := ["JavaScript", "Node.js", "React", "MongoDB"]
     description := "Develop end-to-end web applications in a collaborative agile environment."
     location := "San Francisco, CA"
     duration := "6 months"
     stipend := "$2,500/month"
     applyLink := "#" },
   { title := "Software Engineering Intern"
     company := "DataDrive Technologies"
     matchScore := 79
     skills := ["Python", "Java", "SQL", "Data Structures"]
     description := "Work on backend systems and data processing pipelines for our analytics platform."
     location := "Austin, TX"
     duration := "5 months"
     stipend := "$2,200/month"
     applyLink := "#" }]

/-- `generateResults()`: renders the fixed literal sample data into the
skills container, profile summary, internships container and the
recommendations block.  It reads no state. -/
def generateResults (s : St) : St :=
  { s with skillsContainer := sampleSkills
           profileSummary := sampleSummary
           internshipsContainer := sampleInternships
           recommendationsRendered := true }

/-- `analyzeResume()` (synchronous part): with no `selectedFile` it
alerts and returns; otherwise it shows the loading section, hides the
results section and schedules the `setTimeout` callback. -/
def analyzeResume (s : St) : St :=
  match s.selectedFile with
  | none => { s with alerts := s.alerts ++ [UserError.noFileSelected] }
  | some _ =>
      { s with loadingHidden := false
               resultsHidden := true
               pendingAnalysis := true }

/-- The `setTimeout` callback scheduled by `analyzeResume`: hides the
loading section, shows the results section and runs `generateResults`. -/
def analyzeTimeout (s : St) : St :=
  generateResults { s with loadingHidden := true
                           resultsHidden := false
                           pendingAnalysis := false }

end Script

namespace Script

/-- `handleFileSelection` never touches the camera fields. -/
theorem handleFileSelection_liveTracks (f : File) (s : St) :
    (handleFileSelection f s).liveTracks = s.liveTracks := by
  unfold handleFileSelection
  split <;> rfl

/-- The camera's synthesized MIME type is in the allow-list. -/
theorem contains_jpeg : validTypes.contains "image/jpeg" = true := by decide

/-- The state after one successful camera open from the initial page
state: the platform granted a stream whose single track id is 0. -/
def stCamOpen : St := openCamera (some [0]) initSt

/-- A concrete file with a previously accepted MIME type, used to build
states that already hold a selection. -/
def pdfFile : File :=
  { name := "resume.pdf", mimeType := "application/pdf", bytes := [37, 80, 68, 70] }

/-- A state that already holds a validated selection. -/
def stWithFile : St := handleFileSelection pdfFile initSt

end Script

namespace Script

/-- C1 (counterexample): the claim says every track of the active stream
is stopped on every path, including when canvas drawing fails.  In the
source the `stream.getTracks().forEach(track => track.stop())` line runs
only after `canvas.getContext` / `context.drawImage`; when that canvas
phase throws, `captureImage` aborts with track 0 of the open session
still live. -/
theorem captureImage_drawFail_leaks_track :
    stCamOpen.stream = some [0] ∧
    (captureImage ⟨false, some [1, 2, 3]⟩ stCamOpen).liveTracks = [0] := by
  constructor <;> rfl

/-- C1 (amended): the release precedes blob encoding, not canvas drawing.
Whenever the canvas phase succeeds and a stream is held, every track of
that stream is stopped before `captureImage` completes, regardless of
whether blob encoding succeeds (`env.blobResult` arbitrary, including
`none`). -/
theorem captureImage_releases_after_draw (env : CaptureEnv) (s : St)
    (ts : List Nat) (hdraw : env.drawOk = true) (hs : s.stream = some ts) :
    ∀ t ∈ ts, t ∉ (captureImage env s).liveTracks := by
  intro t ht
  unfold captureImage
  rw [hdraw, hs]
  simp only [if_true]
  rw [handleFileSelection_liveTracks]
  simp [List.mem_filter, ht]

/-- C1 (witness for the amended theorem): with the camera open on track
0, a successful draw and a failed blob encoding still stop track 0. -/
theorem captureImage_releases_after_draw_witness :
    0 ∉ (captureImage ⟨true, none⟩ stCamOpen).liveTracks :=
  captureImage_releases_after_draw ⟨true, none⟩ stCamOpen [0] rfl rfl 0
    (by decide)

end Script

namespace Script

/-- C2 (counterexample): the claim says a second `openCamera` while a
session is active is rejected or force-releases the prior session.  In
the source `openCamera` has no guard: from a state with one open session
on track 0, a second granted open holds the new stream (track 1) while
track 0 is never stopped — two live camera handles coexist. -/
theorem openCamera_second_open_leaks :
    stCamOpen.stream = some [0] ∧
    (openCamera (some [1]) stCamOpen).stream = some [1] ∧
    (openCamera (some [1]) stCamOpen).liveTracks = [0, 1] := by
  refine ⟨rfl, rfl, rfl⟩

/-- C2 (amended): a second `openCamera` while a session is active is
neither rejected nor does it release the prior session: the granted new
stream is held, and the hardware track ledger keeps every previously
live track (in particular the prior session's) while adding the new
ones. -/
theorem openCamera_second_open (s : St) (ts0 ts1 : List Nat)
    (h : s.stream = some ts0) :
    (openCamera (some ts1) s).stream = some ts1 ∧
    (openCamera (some ts1) s).liveTracks = s.liveTracks ++ ts1 ∧
    ∀ t ∈ s.liveTracks, t ∈ (openCamera (some ts1) s).liveTracks := by
  refine ⟨rfl, rfl, ?_⟩
  intro t ht
  simp [openCamera]
  exact Or.inl ht

/-- C2 (witness for the amended theorem): concrete second open over the
session on track 0. -/
theorem openCamera_second_open_witness :
    (openCamera (some [1]) stCamOpen).stream = some [1] ∧
    (openCamera (some [1]) stCamOpen).liveTracks = stCamOpen.liveTracks ++ [1] ∧
    ∀ t ∈ stCamOpen.liveTracks, t ∈ (openCamera (some [1]) stCamOpen).liveTracks :=
  openCamera_second_open stCamOpen [0] [1] rfl

/-- C3: a candidate whose declared MIME type is outside `validTypes` is
rejected on every route into `handleFileSelection` (drop and picker
route through it directly; a camera capture synthesizes the in-list type
`image/jpeg`, so an out-of-list camera candidate cannot arise): the
`UnsupportedFileTypeError` alert is raised, the selection container is
re-hidden, and `selectedFile` ends `none` — also clearing any previously
selected file. -/
theorem handleFileSelection_rejects_invalid (file : File) (s : St)
    (h : validTypes.contains file.mimeType = false) :
    (handleFileSelection file s).selectedFile = none ∧
    (handleFileSelection file s).selectedFileContainerHidden = true ∧
    (handleFileSelection file s).alerts
      = s.alerts ++ [UserError.unsupportedFileType] ∧
    (dropHandler [file] s).selectedFile = none ∧
    (changeHandler [file] s).selectedFile = none := by
  have h' : file.mimeType ∉ validTypes := by simpa using h
  simp [handleFileSelection, dropHandler, changeHandler, h']

/-- C3 (witness): an `.exe`-typed candidate is rejected from a state
that already holds a selected PDF, and the prior selection is cleared. -/
theorem handleFileSelection_rejects_invalid_witness :
    (handleFileSelection
      { name := "virus.exe", mimeType := "application/x-msdownload",
        bytes := [77, 90] } stWithFile).selectedFile = none ∧
    (handleFileSelection
      { name := "virus.exe", mimeType := "application/x-msdownload",
        bytes := [77, 90] } stWithFile).selectedFileContainerHidden = true ∧
    (handleFileSelection
      { name := "virus.exe", mimeType := "application/x-msdownload",
        bytes := [77, 90] } stWithFile).alerts
      = stWithFile.alerts ++ [UserError.unsupportedFileType] ∧
    (dropHandler
      [{ name := "virus.exe", mimeType := "application/x-msdownload",
         bytes := [77, 90] }] stWithFile).selectedFile = none ∧
    (changeHandler
      [{ name := "virus.exe", mimeType := "application/x-msdownload",
         bytes := [77, 90] }] stWithFile).selectedFile = none :=
  handleFileSelection_rejects_invalid
    { name := "virus.exe", mimeType := "application/x-msdownload",
      bytes := [77, 90] } stWithFile (by decide)

end Script

namespace Script

/-- C4: the allow-list is exactly the six listed MIME types, and any
candidate declaring one of them is accepted on every route into
`handleFileSelection` (drop and picker route through it directly; a
camera capture synthesizes the in-list `image/jpeg`): the controller
ends holding exactly that file — same name, MIME type and bytes — with
its name displayed and the selection container shown. -/
theorem handleFileSelection_accepts_valid (file : File) (s : St)
    (h : validTypes.contains file.mimeType = true) :
    validTypes = ["application/pdf",
      "application/vnd.openxmlformats-officedocument.wordprocessingml.document",
      "application/msword", "text/plain", "image/jpeg", "image/png"] ∧
    (handleFileSelection file s).selectedFile = some file ∧
    (handleFileSelection file s).selectedFileName = file.name ∧
    (handleFileSelection file s).selectedFileContainerHidden = false ∧
    (handleFileSelection file s).alerts = s.alerts ∧
    (dropHandler [file] s).selectedFile = some file ∧
    (changeHandler [file] s).selectedFile = some file := by
  have h' : file.mimeType ∈ validTypes := by simpa using h
  refine ⟨rfl, ?_⟩
  simp [handleFileSelection, dropHandler, changeHandler, h']

/-- C4 (witness): a PDF candidate dropped on the initial state is held
exactly. -/
theorem handleFileSelection_accepts_valid_witness :
    validTypes = ["application/pdf",
      "application/vnd.openxmlformats-officedocument.wordprocessingml.document",
      "application/msword", "text/plain", "image/jpeg", "image/png"] ∧
    (handleFileSelection pdfFile initSt).selectedFile = some pdfFile ∧
    (handleFileSelection pdfFile initSt).selectedFileName = pdfFile.name ∧
    (handleFileSelection pdfFile initSt).selectedFileContainerHidden = false ∧
    (handleFileSelection pdfFile initSt).alerts = initSt.alerts ∧
    (dropHandler [pdfFile] initSt).selectedFile = some pdfFile ∧
    (changeHandler [pdfFile] initSt).selectedFile = some pdfFile :=
  handleFileSelection_accepts_valid pdfFile initSt (by decide)

/-- C5: acquiring a new valid candidate while a file is already selected
replaces it in one step: the single `selectedFile` cell (so two selected
files can never coexist) ends holding exactly the new file on every
route, and when the two files differ the old one is no longer
observable. -/
theorem handleFileSelection_replaces_selection (oldF newF : File) (s : St)
    (hold : s.selectedFile = some oldF)
    (h : validTypes.contains newF.mimeType = true) :
    (handleFileSelection newF s).selectedFile = some newF ∧
    (dropHandler [newF] s).selectedFile = some newF ∧
    (changeHandler [newF] s).selectedFile = some newF ∧
    (oldF ≠ newF → (handleFileSelection newF s).selectedFile ≠ some oldF) := by
  have h' : newF.mimeType ∈ validTypes := by simpa using h
  refine ⟨?_, ?_, ?_, ?_⟩ <;>
    simp [handleFileSelection, dropHandler, changeHandler, h']
  intro hne
  exact fun hcontr => hne hcontr.symm

/-- C5 (witness): a plain-text candidate replaces the previously held
PDF. -/
theorem handleFileSelection_replaces_selection_witness :
    (handleFileSelection
      { name := "notes.txt", mimeType := "text/plain", bytes := [104, 105] }
      stWithFile).selectedFile
      = some { name := "notes.txt", mimeType := "text/plain", bytes := [104, 105] } ∧
    (dropHandler
      [{ name := "notes.txt", mimeType := "text/plain", bytes := [104, 105] }]
      stWithFile).selectedFile
      = some { name := "notes.txt", mimeType := "text/plain", bytes := [104, 105] } ∧
    (changeHandler
      [{ name := "notes.txt", mimeType := "text/plain", bytes := [104, 105] }]
      stWithFile).selectedFile
      = some { name := "notes.txt", mimeType := "text/plain", bytes := [104, 105] } ∧
    (pdfFile ≠ { name := "notes.txt", mimeType := "text/plain", bytes := [104, 105] } →
      (handleFileSelection
        { name := "notes.txt", mimeType := "text/plain", bytes := [104, 105] }
        stWithFile).selectedFile ≠ some pdfFile) :=
  handleFileSelection_replaces_selection pdfFile
    { name := "notes.txt", mimeType := "text/plain", bytes := [104, 105] }
    stWithFile (by decide) (by decide)

end Script

namespace Script

/-- C6: triggering `analyzeResume` with no file selected raises exactly
the `NoFileSelectedError` alert and nothing else: the whole resulting
state equals the old one with only that alert appended, so no loading or
results toggle happens, no processing is scheduled, and every state
variable is unchanged. -/
theorem analyzeResume_noFile (s : St) (h : s.selectedFile = none) :
    analyzeResume s = { s with alerts := s.alerts ++ [UserError.noFileSelected] } := by
  unfold analyzeResume
  rw [h]

/-- C6 (witness): analyze on the initial state only alerts. -/
theorem analyzeResume_noFile_witness :
    analyzeResume initSt
      = { initSt with alerts := initSt.alerts ++ [UserError.noFileSelected] } :=
  analyzeResume_noFile initSt rfl

/-- C7: when `getUserMedia` rejects (permission denied or no camera),
`openCamera` only surfaces the `MediaAccessError` alert: starting with
no stream held, the controller still holds none, the camera feed and
button visibility are untouched, and the entire effect is that one
appended alert — in particular no second acquisition attempt (retry)
occurs. -/
theorem openCamera_denied (s : St) (h : s.stream = none) :
    (openCamera none s).stream = none ∧
    (openCamera none s).cameraFeedHidden = s.cameraFeedHidden ∧
    (openCamera none s).cameraBtnHidden = s.cameraBtnHidden ∧
    openCamera none s = { s with alerts := s.alerts ++ [UserError.mediaAccess] } := by
  refine ⟨?_, rfl, rfl, rfl⟩
  simpa [openCamera] using h

/-- C7 (witness): a denied open from the initial `Idle` state. -/
theorem openCamera_denied_witness :
    (openCamera none initSt).stream = none ∧
    (openCamera none initSt).cameraFeedHidden = initSt.cameraFeedHidden ∧
    (openCamera none initSt).cameraBtnHidden = initSt.cameraBtnHidden ∧
    openCamera none initSt
      = { initSt with alerts := initSt.alerts ++ [UserError.mediaAccess] } :=
  openCamera_denied initSt rfl

/-- C8: a successful capture (draw and encoding succeed over an open
stream) synthesizes the file named `resume-photo.jpg` with MIME type
`image/jpeg` — a type in the allow-list, so validation passes — and the
controller ends holding exactly that synthesized file with the selection
container shown and the camera UI reset. -/
theorem captureImage_success (s : St) (ts bs : List Nat)
    (hs : s.stream = some ts) :
    validTypes.contains "image/jpeg" = true ∧
    (captureImage ⟨true, some bs⟩ s).selectedFile
      = some { name := "resume-photo.jpg", mimeType := "image/jpeg", bytes := bs } ∧
    (captureImage ⟨true, some bs⟩ s).selectedFileName = "resume-photo.jpg" ∧
    (captureImage ⟨true, some bs⟩ s).selectedFileContainerHidden = false ∧
    (captureImage ⟨true, some bs⟩ s).cameraFeedHidden = true ∧
    (captureImage ⟨true, some bs⟩ s).cameraBtnHidden = false := by
  refine ⟨contains_jpeg, ?_⟩
  have hmem : ("image/jpeg" : String) ∈ validTypes := by decide
  simp [captureImage, hs, handleFileSelection, blobPartBytes, hmem]

/-- C8 (witness): concrete capture over the open session. -/
theorem captureImage_success_witness :
    validTypes.contains "image/jpeg" = true ∧
    (captureImage ⟨true, some [9, 9]⟩ stCamOpen).selectedFile
      = some { name := "resume-photo.jpg", mimeType := "image/jpeg", bytes := [9, 9] } ∧
    (captureImage ⟨true, some [9, 9]⟩ stCamOpen).selectedFileName = "resume-photo.jpg" ∧
    (captureImage ⟨true, some [9, 9]⟩ stCamOpen).selectedFileContainerHidden = false ∧
    (captureImage ⟨true, some [9, 9]⟩ stCamOpen).cameraFeedHidden = true ∧
    (captureImage ⟨true, some [9, 9]⟩ stCamOpen).cameraBtnHidden = false :=
  captureImage_success stCamOpen [0] [9, 9] rfl

end Script

namespace Script

/-- C9: the analysis output never depends on the selected file.  For any
two states each holding any validated file, running the full analyze
pipeline (`analyzeResume` then its scheduled timeout callback, which
calls `generateResults`) renders identical skills, profile summary,
internship records and recommendations: `generateResults` writes only
fixed literal sample data and reads neither the file's name, type nor
bytes. -/
theorem analyze_results_independent_of_file (s1 s2 : St) (f1 f2 : File)
    (h1 : s1.selectedFile = some f1) (h2 : s2.selectedFile = some f2) :
    (analyzeTimeout (analyzeResume s1)).skillsContainer
      = (analyzeTimeout (analyzeResume s2)).skillsContainer ∧
    (analyzeTimeout (analyzeResume s1)).profileSummary
      = (analyzeTimeout (analyzeResume s2)).profileSummary ∧
    (analyzeTimeout (analyzeResume s1)).internshipsContainer
      = (analyzeTimeout (analyzeResume s2)).internshipsContainer ∧
    (analyzeTimeout (analyzeResume s1)).recommendationsRendered
      = (analyzeTimeout (analyzeResume s2)).recommendationsRendered := by
  simp [analyzeResume, analyzeTimeout, generateResults, h1, h2]

/-- C9 (witness): a held PDF and a held camera photo produce the same
rendered results. -/
theorem analyze_results_independent_of_file_witness :
    (analyzeTimeout (analyzeResume stWithFile)).skillsContainer
      = (analyzeTimeout (analyzeResume (captureImage ⟨true, some [9, 9]⟩ stCamOpen))).skillsContainer ∧
    (analyzeTimeout (analyzeResume stWithFile)).profileSummary
      = (analyzeTimeout (analyzeResume (captureImage ⟨true, some [9, 9]⟩ stCamOpen))).profileSummary ∧
    (analyzeTimeout (analyzeResume stWithFile)).internshipsContainer
      = (analyzeTimeout (analyzeResume (captureImage ⟨true, some [9, 9]⟩ stCamOpen))).internshipsContainer ∧
    (analyzeTimeout (analyzeResume stWithFile)).recommendationsRendered
      = (analyzeTimeout (analyzeResume (captureImage ⟨true, some [9, 9]⟩ stCamOpen))).recommendationsRendered :=
  analyze_results_independent_of_file stWithFile
    (captureImage ⟨true, some [9, 9]⟩ stCamOpen) pdfFile
    { name := "resume-photo.jpg", mimeType := "image/jpeg", bytes := [9, 9] }
    rfl rfl

/-- C10: an empty file list is a complete no-op at the controller level.
The picker `change` handler leaves the state literally unchanged; the
`drop` handler only resets the drop-zone styles — `selectedFile`, the
stream and track ledger, every hidden flag and the alert list are all
untouched, and `handleFileSelection`'s effects (candidate stored or
alert raised) never occur. -/
theorem empty_fileList_noop (s : St) :
    changeHandler [] s = s ∧
    dropHandler [] s
      = { s with dropZoneBorderColor := "#4361ee",
                 dropZoneBgColor := "rgba(67, 97, 238, 0.05)" } ∧
    (dropHandler [] s).selectedFile = s.selectedFile ∧
    (dropHandler [] s).stream = s.stream ∧
    (dropHandler [] s).liveTracks = s.liveTracks ∧
    (dropHandler [] s).cameraFeedHidden = s.cameraFeedHidden ∧
    (dropHandler [] s).cameraBtnHidden = s.cameraBtnHidden ∧
    (dropHandler [] s).selectedFileContainerHidden = s.selectedFileContainerHidden ∧
    (dropHandler [] s).alerts = s.alerts := by
  refine ⟨rfl, rfl, rfl, rfl, rfl, rfl, rfl, rfl, rfl⟩

end Script
